import Mathlib

/-!
Verification development for the `pgdba` virtual-DBA tool: a shallow
embedding of its Patroni REST client, failover pre-check engine,
diagnostic collector, change-set pipeline, and apply lock, together with
theorems settling the specification claims about them.

Machine integers are modelled as `Nat`/`Int` (ports, OIDs and PIDs are
non-negative in the domain, so they are carried as `Nat`); fallible Go
functions returning `(T, error)` are modelled as `Except String T`;
side effects (HTTP exchanges, SQL queries, the filesystem) are modelled
by passing the environment's responses in explicitly and, where a claim
is about which operations are issued, by returning an explicit trace of
issued commands.
-/

namespace Pgdba

/-! ## Decimal rendering (the Go `fmt` "%d" / `strconv` behaviour)

`decRepr n` is the usual base-10 rendering of a natural number, written
as an explicit recursion so that its injectivity can be proved; `intRepr`
extends it to `Int` with a leading minus sign, as Go's `%d` does. -/

/-- Little-endian base-10 digits of `n` (never empty; `0 ↦ [0]`). -/
def decDigits (n : Nat) : List Nat :=
  if _h : n < 10 then [n]
  else (n % 10) :: decDigits (n / 10)
termination_by n
decreasing_by
  exact Nat.div_lt_self (by omega) (by omega)

/-- Reconstruct the value of a little-endian digit list. -/
def decVal (l : List Nat) : Nat :=
  l.foldr (fun d acc => d + 10 * acc) 0

/-- Base-10 rendering of a natural number, as Go's `%d` prints it. -/
def decRepr (n : Nat) : String :=
  String.mk ((decDigits n).reverse.map (fun d => Char.ofNat (48 + d)))

/-- Base-10 rendering of an integer, as Go's `%d` prints it. -/
def intRepr (i : Int) : String :=
  if i < 0 then "-" ++ decRepr i.natAbs else decRepr i.natAbs

theorem decVal_decDigits (n : Nat) : decVal (decDigits n) = n := by
  induction n using decDigits.induct with
  | case1 n h =>
      rw [decDigits, dif_pos h]
      simp [decVal]
  | case2 n h ih =>
      rw [decDigits, dif_neg h]
      simp only [decVal, List.foldr_cons] at *
      rw [ih]
      omega

theorem decDigits_lt_ten (n : Nat) : ∀ d ∈ decDigits n, d < 10 := by
  induction n using decDigits.induct with
  | case1 n h =>
      rw [decDigits, dif_pos h]
      intro d hd
      simp at hd
      omega
  | case2 n h ih =>
      rw [decDigits, dif_neg h]
      intro d hd
      rcases List.mem_cons.mp hd with h1 | h2
      · subst h1; exact Nat.mod_lt _ (by omega)
      · exact ih d h2

theorem decDigits_injective {m n : Nat} (h : decDigits m = decDigits n) :
    m = n := by
  have := decVal_decDigits m
  rw [h, decVal_decDigits] at this
  omega

theorem map_digitChar_injective :
    ∀ (l₁ l₂ : List Nat), (∀ d ∈ l₁, d < 10) → (∀ d ∈ l₂, d < 10) →
      l₁.map (fun d => Char.ofNat (48 + d)) = l₂.map (fun d => Char.ofNat (48 + d)) →
      l₁ = l₂ := by
  intro l₁
  induction l₁ with
  | nil =>
      intro l₂ _ _ h
      cases l₂ with
      | nil => rfl
      | cons b bs => simp at h
  | cons a as ih =>
      intro l₂ h₁ h₂ h
      cases l₂ with
      | nil => simp at h
      | cons b bs =>
          simp only [List.map_cons, List.cons.injEq] at h
          have ha : a < 10 := h₁ a (by simp)
          have hb : b < 10 := h₂ b (by simp)
          have hab : a = b := by
            have := h.1
            have h48 : (48 + a : Nat) = 48 + b := by
              have va : (Char.ofNat (48 + a)).toNat = 48 + a := by
                interval_cases a <;> decide
              have vb : (Char.ofNat (48 + b)).toNat = 48 + b := by
                interval_cases b <;> decide
              rw [← va, ← vb, this]
            omega
          have : as = bs :=
            ih bs (fun d hd => h₁ d (by simp [hd])) (fun d hd => h₂ d (by simp [hd])) h.2
          rw [hab, this]

theorem decRepr_injective {m n : Nat} (h : decRepr m = decRepr n) : m = n := by
  unfold decRepr at h
  have hdata : ((decDigits m).reverse.map (fun d => Char.ofNat (48 + d)))
      = ((decDigits n).reverse.map (fun d => Char.ofNat (48 + d))) := by
    have := congrArg String.data h
    simpa using this
  have hrev : (decDigits m).reverse = (decDigits n).reverse :=
    map_digitChar_injective _ _
      (fun d hd => decDigits_lt_ten m d (List.mem_reverse.mp hd))
      (fun d hd => decDigits_lt_ten n d (List.mem_reverse.mp hd))
      hdata
  exact decDigits_injective (by
    have := congrArg List.reverse hrev
    simpa using this)

/-! ## SHA-256 (the Go `crypto/sha256` package)

A direct executable implementation over `Nat` words reduced mod 2^32,
used by `ComputeFingerprint` exactly as the source calls
`sha256.Sum256([]byte(input))` and renders the digest with `%x`. -/

/-- Truncate to a 32-bit word. -/
def w32 (n : Nat) : Nat := n % 4294967296

/-- Right-rotate a 32-bit word by `k` bits. -/
def rotr32 (x k : Nat) : Nat := w32 ((x >>> k) ||| (x <<< (32 - k)))

def shaCh (x y z : Nat) : Nat := (x &&& y) ^^^ ((x ^^^ 4294967295) &&& z)

def shaMaj (x y z : Nat) : Nat := (x &&& y) ^^^ (x &&& z) ^^^ (y &&& z)

def bigSigma0 (x : Nat) : Nat := rotr32 x 2 ^^^ rotr32 x 13 ^^^ rotr32 x 22

def bigSigma1 (x : Nat) : Nat := rotr32 x 6 ^^^ rotr32 x 11 ^^^ rotr32 x 25

def smallSigma0 (x : Nat) : Nat := rotr32 x 7 ^^^ rotr32 x 18 ^^^ (x >>> 3)

def smallSigma1 (x : Nat) : Nat := rotr32 x 17 ^^^ rotr32 x 19 ^^^ (x >>> 10)

/-- The 64 SHA-256 round constants (decimal renderings of the standard
fractional-cube-root words). -/
def shaK : List Nat :=
  [1116352408, 1899447441, 3049323471, 3921009573, 961987163,
   1508970993, 2453635748, 2870763221, 3624381080, 310598401,
   607225278, 1426881987, 1925078388, 2162078206, 2614888103,
   3248222580, 3835390401, 4022224774, 264347078, 604807628,
   770255983, 1249150122, 1555081692, 1996064986, 2554220882,
   2821834349, 2952996808, 3210313671, 3336571891, 3584528711,
   113926993, 338241895, 666307205, 773529912, 1294757372,
   1396182291, 1695183700, 1986661051, 2177026350, 2456956037,
   2730485921, 2820302411, 3259730800, 3345764771, 3516065817,
   3600352804, 4094571909, 275423344, 430227734, 506948616,
   659060556, 883997877, 958139571, 1322822218, 1537002063,
   1747873779, 1955562222, 2024104815, 2227730452, 2361852424,
   2428436474, 2756734187, 3204031479, 3329325298]

/-- Initial SHA-256 hash state (decimal renderings of the standard
fractional-square-root words). -/
def shaH0 : List Nat :=
  [1779033703, 3144134277, 1013904242, 2773480762,
   1359893119, 2600822924, 528734635, 1541459225]

/-- SHA-256 padding: append 0x80, zero-fill to 56 mod 64, then the
64-bit big-endian bit length. -/
def shaPad (msg : List Nat) : List Nat :=
  let len := msg.length
  let zeros := (120 - ((len + 1) % 64)) % 64
  let bitLen := len * 8
  msg ++ [0x80] ++ List.replicate zeros 0 ++
    [(bitLen >>> 56) &&& 255, (bitLen >>> 48) &&& 255, (bitLen >>> 40) &&& 255,
     (bitLen >>> 32) &&& 255, (bitLen >>> 24) &&& 255, (bitLen >>> 16) &&& 255,
     (bitLen >>> 8) &&& 255, bitLen &&& 255]

/-- Split a padded message into 64-byte chunks. -/
def shaChunks (l : List Nat) : List (List Nat) :=
  if _h : l = [] then []
  else l.take 64 :: shaChunks (l.drop 64)
termination_by l.length
decreasing_by
  simp only [List.length_drop]
  have : 0 < l.length := List.length_pos.mpr _h
  omega

/-- Big-endian 32-bit words of one 64-byte chunk. -/
def chunkWords (chunk : List Nat) : List Nat :=
  (List.range 16).map (fun i =>
    chunk.getD (4 * i) 0 * 16777216 + chunk.getD (4 * i + 1) 0 * 65536 +
    chunk.getD (4 * i + 2) 0 * 256 + chunk.getD (4 * i + 3) 0)

/-- Extend 16 message words to the 64-entry message schedule. -/
def shaSchedule (ws : List Nat) : Array Nat :=
  (List.range 48).foldl (fun w i =>
    w.push (w32 (smallSigma1 (w.getD (i + 14) 0) + w.getD (i + 9) 0 +
      smallSigma0 (w.getD (i + 1) 0) + w.getD i 0))) ws.toArray

/-- One compression round. -/
def shaRound (st : List Nat) (kw : Nat × Nat) : List Nat :=
  match st with
  | [a, b, c, d, e, f, g, h] =>
      let t1 := w32 (h + bigSigma1 e + shaCh e f g + kw.1 + kw.2)
      let t2 := w32 (bigSigma0 a + shaMaj a b c)
      [w32 (t1 + t2), a, b, c, w32 (d + t1), e, f, g]
  | other => other

/-- Process one 64-byte chunk into the running hash state. -/
def shaCompress (hs : List Nat) (chunk : List Nat) : List Nat :=
  let w := shaSchedule (chunkWords chunk)
  let st := (shaK.zip w.toList).foldl (fun st kwi => shaRound st (kwi.1, kwi.2)) hs
  List.zipWith (fun a b => w32 (a + b)) hs st

/-- SHA-256 digest of a byte sequence, as eight 32-bit words. -/
def sha256Words (msg : List Nat) : List Nat :=
  (shaChunks (shaPad msg)).foldl shaCompress shaH0

def hexDigit (n : Nat) : Char :=
  "0123456789abcdef".data.getD n '0'

/-- Lowercase hex rendering of a 32-bit word (8 digits). -/
def wordHex (x : Nat) : List Char :=
  (List.range 8).map (fun i => hexDigit ((x >>> (28 - 4 * i)) &&& 15))

/-- `fmt.Sprintf("%x", sha256.Sum256(bytes))`: 64 lowercase hex chars. -/
def sha256Hex (msg : List Nat) : String :=
  String.mk ((sha256Words msg).map wordHex).flatten

/-- UTF-8 bytes of a string, as Go's `[]byte(s)` conversion. -/
def strBytes (s : String) : List Nat :=
  s.toUTF8.toList.map UInt8.toNat

namespace patroni

/-! ## `internal/patroni/client.go` -/

/-- `StateRunning` (`NodeState` is a string type in the source). -/
def StateRunning : String := "running"

/-- `Member`: a single cluster member node. -/
structure Member where
  name : String
  host : String
  port : Nat
  role : String
  state : String
  lag : Int
  timeline : Int
  apiURL : String
deriving DecidableEq, Repr

/-- `ClusterStatus`: the Patroni cluster topology. -/
structure ClusterStatus where
  members : List Member
  failover : Option String := none
  pause : Bool := false
deriving DecidableEq, Repr

/-- `NewClient` stores `strings.TrimRight(baseURL, "/")`: every trailing
`'/'` is removed. -/
def newClientBaseURL (baseURL : String) : String :=
  String.mk (baseURL.data.reverse.dropWhile (fun c => c == '/')).reverse

/-- The URL a client built from `baseURL` issues for request path `p`
(the source concatenates `c.baseURL + path`). -/
def requestURL (baseURL p : String) : String :=
  newClientBaseURL baseURL ++ p

/-- Outcome of one HTTP exchange: either the transport failed or a
response with some status code arrived. -/
inductive HTTPOutcome where
  | transportErr (msg : String)
  | response (status : Nat)
deriving DecidableEq, Repr

/-- `IsPrimary` (GET /primary): on transport failure returns the wrapped
error; otherwise returns `resp.StatusCode == http.StatusOK` with a nil
error, whatever the status code is. -/
def IsPrimary : HTTPOutcome → Except String Bool
  | .transportErr e => .error ("check primary: " ++ e)
  | .response status => .ok (status == 200)

/-! ### JSON decoding of the `lag` member field

`Member.Lag` is declared `int64` with the plain tag `json:"lag"` and the
package defines no custom `UnmarshalJSON`, so decoding follows Go's
`encoding/json` semantics for an `int64` struct field: an absent field
leaves the zero value, a JSON number is stored, and a JSON string is a
type error that fails the whole decode. -/

/-- The raw JSON value found at a member's `lag` key, if present. -/
inductive LagJSON where
  | jint (n : Int)
  | jstr (s : String)
deriving DecidableEq, Repr

/-- `encoding/json` decoding of the `lag` field into the `int64`
`Member.Lag` (no custom decoder exists in the source). -/
def decodeLagField : Option LagJSON → Except String Int
  | none => .ok 0
  | some (.jint n) => .ok n
  | some (.jstr _) =>
      .error "json: cannot unmarshal string into Go struct field Member.lag of type int64"

/-- A member object as it appears in a `/cluster` response body, with the
`lag` key kept raw. -/
structure RawMember where
  name : String
  host : String := ""
  port : Nat := 0
  role : String
  state : String
  lag : Option LagJSON := none
  timeline : Int := 0
  apiURL : String := ""
deriving DecidableEq, Repr

/-- Decode one raw member as `encoding/json` does for the `Member`
struct declared in the source. -/
def decodeMember (r : RawMember) : Except String Member := do
  let lag ← decodeLagField r.lag
  pure { name := r.name, host := r.host, port := r.port, role := r.role,
         state := r.state, lag := lag, timeline := r.timeline, apiURL := r.apiURL }

/-- Decode the member list of a `/cluster` response body (the decode the
tail of `GetClusterStatus` performs on a 2xx body). -/
def decodeMembers : List RawMember → Except String (List Member)
  | [] => .ok []
  | r :: rest => do
      let m ← decodeMember r
      let ms ← decodeMembers rest
      pure (m :: ms)

end patroni

namespace failover

/-! ## `internal/failover/precheck.go` -/

open patroni

/-- `DefaultMaxLagBytes`: maximum acceptable replication lag for a
switchover candidate. -/
def DefaultMaxLagBytes : Int := 10 * 1024 * 1024

/-- Role test used at every role-comparing site of the source. -/
def isPrimaryRole (m : Member) : Bool :=
  m.role == "leader" || m.role == "master"

/-- The loop body of `FindPrimary`: first member whose role is
`leader` or `master`. -/
def findPrimaryIn : List Member → Option String
  | [] => none
  | m :: rest =>
      if m.role == "leader" || m.role == "master" then some m.name
      else findPrimaryIn rest

/-- `FindPrimary`: name of the current primary, or an error citing the
member count. -/
def FindPrimary (cs : ClusterStatus) : Except String String :=
  match findPrimaryIn cs.members with
  | some n => .ok n
  | none =>
      .error ("no primary found in cluster (members: " ++
        decRepr cs.members.length ++ ")")

/-- The loop of `validateCandidate`: find the member named `candidate`
and check role, state and lag. -/
def validateCandidateIn : List Member → String → Int → Except String Unit
  | [], candidate, _ =>
      .error ("candidate \"" ++ candidate ++ "\" not found in cluster")
  | m :: rest, candidate, maxLagBytes =>
      if m.name != candidate then validateCandidateIn rest candidate maxLagBytes
      else if m.role == "leader" || m.role == "master" then
        .error ("candidate \"" ++ candidate ++ "\" is already the primary")
      else if m.state != StateRunning then
        .error ("candidate \"" ++ candidate ++ "\" is not running (state: " ++
          m.state ++ ")")
      else if m.lag > maxLagBytes then
        .error ("candidate \"" ++ candidate ++ "\" replication lag " ++
          intRepr m.lag ++ " bytes exceeds threshold " ++ intRepr maxLagBytes ++
          " bytes")
      else .ok ()

/-- `validateCandidate`. -/
def validateCandidate (cs : ClusterStatus) (candidate : String)
    (maxLagBytes : Int) : Except String Unit :=
  validateCandidateIn cs.members candidate maxLagBytes

/-- `CheckSwitchover`: primary must exist; a named candidate must
validate; otherwise some running replica must exist. -/
def CheckSwitchover (cs : ClusterStatus) (candidate : String)
    (maxLagBytes : Int) : Except String Unit :=
  match FindPrimary cs with
  | .error e => .error ("switchover pre-check: " ++ e)
  | .ok _ =>
      if candidate ≠ "" then validateCandidate cs candidate maxLagBytes
      else if cs.members.any (fun m =>
          m.role != "leader" && m.role != "master" && m.state == StateRunning) then
        .ok ()
      else .error "switchover pre-check: no running replicas available"

end failover

namespace inspect

/-! ## `internal/inspect`: cluster identity (`identity.go`) -/

/-- `TierSystemIdentifier` (`IdentityTier` is an int in the source). -/
def TierSystemIdentifier : Nat := 0

/-- `TierResolvedAddr`. -/
def TierResolvedAddr : Nat := 1

/-- `TierConfigAddr`. -/
def TierConfigAddr : Nat := 2

/-- `ClusterIdentity` (the `Fingerprint` field, which the source fills by
mutation, is represented by the return value of `ComputeFingerprint`). -/
structure ClusterIdentity where
  tier : Nat
  systemIdentifier : String := ""
  resolvedAddr : String := ""
  resolvedPort : Nat := 0
  configHost : String := ""
  configPort : Nat := 0
  datID : Nat := 0
  serverVersionNum : Nat := 0
deriving DecidableEq, Repr

/-- The string the source feeds to SHA-256: a tier prefix followed by the
chosen tier's components (`fmt.Sprintf` calls in `ComputeFingerprint`). -/
def hashInput (id : ClusterIdentity) : String :=
  if id.tier = TierSystemIdentifier then
    "t0:" ++ id.systemIdentifier
  else if id.tier = TierResolvedAddr then
    "t1:" ++ id.resolvedAddr ++ ":" ++ decRepr id.resolvedPort ++ ":" ++
      decRepr id.datID
  else if id.tier = TierConfigAddr then
    "t2:" ++ id.configHost ++ ":" ++ decRepr id.configPort
  else
    "t?:" ++ id.configHost ++ ":" ++ decRepr id.configPort

/-- `ComputeFingerprint`: lowercase-hex SHA-256 of the tier-prefixed
component string. -/
def ComputeFingerprint (id : ClusterIdentity) : String :=
  sha256Hex (strBytes (hashInput id))

/-! ## `internal/inspect`: collector types (`types.go`) and `Collect` -/

/-- `PGSetting`: one row of `pg_settings`. -/
structure PGSetting where
  name : String
  setting : String
  unit : String := ""
  context : String
  varType : String := ""
  source : String := ""
  minVal : String := ""
  maxVal : String := ""
  bootVal : String := ""
  resetVal : String := ""
  sourceFile : String := ""
  sourceLine : Int := 0
deriving DecidableEq, Repr

/-- `PGSSRow`: one row of `pg_stat_statements` (times are float64). -/
structure PGSSRow where
  queryID : Int
  query : String
  calls : Int
  totalTime : Float
  meanTime : Float
  rows : Int
  minTime : Float
  maxTime : Float
deriving Repr

/-- `PGActivity`: one row of `pg_stat_activity`. -/
structure PGActivity where
  pid : Int
  state : String
  query : String
  waitType : String := ""
  waitName : String := ""
  backend : String := ""
  datName : String := ""
  userName : String := ""
deriving DecidableEq, Repr

/-- `StatBGWriter`. -/
structure StatBGWriter where
  checkpointsTimed : Int
  checkpointsReq : Int
  buffersCheckpoint : Int
  buffersClean : Int
  buffersBackend : Int
deriving DecidableEq, Repr

/-- `StatWal` (PG 14+). -/
structure StatWal where
  walRecords : Int
  walBytes : Int
  walFPI : Int
  walBuffers : Int
  walWrite : Int
  walSync : Int
deriving DecidableEq, Repr

/-- `PrereqResult`. -/
structure PrereqResult where
  name : String
  available : Bool
  version : Nat
  error : String := ""
deriving DecidableEq, Repr

/-- The `Data interface{}` payload of a section, by section kind. -/
inductive SectionData where
  | prereqs (l : List PrereqResult)
  | settings (l : List PGSetting)
  | activity (l : List PGActivity)
  | statements (l : List PGSSRow)
  | bgwriter (s : StatBGWriter)
  | wal (s : StatWal)
deriving Repr

/-- `SectionResult`. -/
structure SectionResult where
  available : Bool
  error : String := ""
  data : Option SectionData := none
deriving Repr

/-- `DiagSnapshot` (`CollectedAt`, a wall-clock read, is not modelled;
the Go map of sections is modelled as an association list written in the
source's insertion order). -/
structure DiagSnapshot where
  identity : ClusterIdentity
  sections : List (String × SectionResult)
deriving Repr

/-- `SamplingConfig` (`Interval` is a duration in nanoseconds). -/
structure SamplingConfig where
  mode : String := "instant"
  interval : Nat := 0
deriving DecidableEq, Repr

/-- The collector's database capability: each method's outcome for this
collection run (the source's `DB` interface; queries are deterministic
within one run). -/
structure DB where
  serverVersionNum : Except String Nat
  pgSettings : Except String (List PGSetting)
  systemIdentifier : Except String String
  resolvedAddr : Except String (String × Nat)
  currentDatID : Except String Nat
  extensionLoaded : String → Except String Bool
  pgStatStatements : Nat → Except String (List PGSSRow)
  pgStatActivity : Except String (List PGActivity)
  statBGWriter : Except String StatBGWriter
  statWal : Except String StatWal

/-- `buildIdentity`: tier fallback exactly as the source orders it. -/
def buildIdentity (db : DB) (version : Nat) (configHost : String)
    (configPort : Nat) : ClusterIdentity :=
  let id : ClusterIdentity :=
    { tier := TierConfigAddr, serverVersionNum := version,
      configHost := configHost, configPort := configPort }
  let id :=
    match db.resolvedAddr with
    | .ok (addr, port) =>
        if addr ≠ "" then { id with resolvedAddr := addr, resolvedPort := port }
        else id
    | .error _ => id
  let id :=
    match db.currentDatID with
    | .ok d => { id with datID := d }
    | .error _ => id
  let tier0 :=
    if version ≥ 130000 then
      match db.systemIdentifier with
      | .ok sysID =>
          if sysID ≠ "" then
            some { id with systemIdentifier := sysID, tier := TierSystemIdentifier }
          else none
      | .error _ => none
    else none
  match tier0 with
  | some id0 => id0
  | none =>
      if id.resolvedAddr ≠ "" then { id with tier := TierResolvedAddr }
      else { id with tier := TierConfigAddr }

/-- `collectPrereqs`: the three probe records. -/
def collectPrereqs (db : DB) (version : Nat) : List PrereqResult :=
  let pgss :=
    match db.extensionLoaded "pg_stat_statements" with
    | .ok avail =>
        { name := "pg_stat_statements", available := avail, version := version :
          PrereqResult }
    | .error e =>
        { name := "pg_stat_statements", available := false, version := version,
          error := e }
  let pgcs :=
    if version ≥ 130000 then
      match db.systemIdentifier with
      | .ok _ =>
          { name := "pg_control_system", available := true, version := version :
            PrereqResult }
      | .error e =>
          { name := "pg_control_system", available := false, version := version,
            error := e }
    else
      { name := "pg_control_system", available := false, version := version,
        error := "requires PostgreSQL 13+" }
  let wal :=
    if version ≥ 140000 then
      { name := "pg_stat_wal", available := true, version := version :
        PrereqResult }
    else
      { name := "pg_stat_wal", available := false, version := version,
        error := "requires PostgreSQL 14+" }
  [pgss, pgcs, wal]

/-- `collectPGSettings`. -/
def collectPGSettings (db : DB) : String × SectionResult :=
  match db.pgSettings with
  | .error e => ("pg_settings", { available := false, error := e })
  | .ok l => ("pg_settings", { available := true, data := some (.settings l) })

/-- `collectPGStatActivity`. -/
def collectPGStatActivity (db : DB) : String × SectionResult :=
  match db.pgStatActivity with
  | .error e => ("pg_stat_activity", { available := false, error := e })
  | .ok l => ("pg_stat_activity", { available := true, data := some (.activity l) })

/-- `collectPGStatStatements`: gated on the prereq probe's outcome. -/
def collectPGStatStatements (db : DB) (prereqs : List PrereqResult) :
    String × SectionResult :=
  let available :=
    match prereqs.find? (fun pr => pr.name == "pg_stat_statements") with
    | some pr => pr.available
    | none => false
  if !available then
    ("pg_stat_statements",
      { available := false, error := "pg_stat_statements extension not loaded" })
  else
    match db.pgStatStatements 100 with
    | .error e => ("pg_stat_statements", { available := false, error := e })
    | .ok rows =>
        ("pg_stat_statements", { available := true, data := some (.statements rows) })

/-- `collectStatBGWriter`. -/
def collectStatBGWriter (db : DB) : String × SectionResult :=
  match db.statBGWriter with
  | .error e => ("pg_stat_bgwriter", { available := false, error := e })
  | .ok s => ("pg_stat_bgwriter", { available := true, data := some (.bgwriter s) })

/-- `collectStatWal`: pre-marked unavailable below PostgreSQL 14. -/
def collectStatWal (db : DB) (version : Nat) : String × SectionResult :=
  if version < 140000 then
    ("pg_stat_wal", { available := false, error := "requires PostgreSQL 14+" })
  else
    match db.statWal with
    | .error e => ("pg_stat_wal", { available := false, error := e })
    | .ok s => ("pg_stat_wal", { available := true, data := some (.wal s) })

/-- `Collect`: the version read is the only fatal step; every data
section degrades independently. -/
def Collect (db : DB) (_cfg : SamplingConfig) (configHost : String)
    (configPort : Nat) : Except String DiagSnapshot :=
  match db.serverVersionNum with
  | .error e => .error e
  | .ok version =>
      let identity := buildIdentity db version configHost configPort
      let prereqs := collectPrereqs db version
      .ok { identity := identity,
            sections :=
              [("prereqs", { available := true, data := some (.prereqs prereqs) }),
               collectPGSettings db,
               collectPGStatActivity db,
               collectPGStatStatements db prereqs,
               collectStatBGWriter db,
               collectStatWal db version] }

/-! ## `internal/inspect/types.go`: change-set types -/

/-- `PatroniOverridden` (`PatroniOverrideLevel` is a string type). -/
def PatroniOverridden : String := "overridden"

/-- `PatroniEphemeral`. -/
def PatroniEphemeral : String := "not_set_but_ephemeral"

/-- `PatroniUnknown`. -/
def PatroniUnknown : String := "unknown"

/-- `PatroniNotManaged`. -/
def PatroniNotManaged : String := "not_managed"

/-- `ParamPermission`. -/
structure ParamPermission where
  allowed : Bool
  reason : String := ""
  minRole : String := ""
deriving DecidableEq, Repr

/-- `ParamChange`. -/
structure ParamChange where
  name : String
  oldValue : String := ""
  newValue : String := ""
  context : String := ""
  needsRestart : Bool := false
  permission : ParamPermission
  patroniOverride : String := ""
deriving DecidableEq, Repr

/-- `DryRunResult`. -/
structure DryRunResult where
  ok : Bool
  warnings : List String := []
  errors : List String := []
deriving DecidableEq, Repr

/-- `ChangeSet` (timestamps carried as abstract clock readings). -/
structure ChangeSet where
  id : String
  fingerprint : String := ""
  parameters : List ParamChange
  createdAt : Nat := 0
  appliedAt : Option Nat := none
  rolledBackAt : Option Nat := none
  preSnapshot : Option DiagSnapshot := none
  dryRunResult : Option DryRunResult := none
deriving Repr

/-! ## `internal/inspect/lock.go` -/

/-- `ApplyLock` (`StartedAt` is carried as its RFC 3339 rendering, which
is all the lock logic uses of it). -/
structure ApplyLock where
  changeSetID : String
  pid : Nat
  startedAt : String
  operation : String
deriving DecidableEq, Repr

/-- What reading the lock file yields: no file, a read failure, contents
that do not unmarshal, or a parseable lock record. -/
inductive FileRead where
  | absent
  | readFailure (msg : String)
  | badJSON (msg : String)
  | goodLock (lock : ApplyLock)
deriving DecidableEq, Repr

/-- The filesystem as the lock code observes it: what each path reads
as, and whether writing each path succeeds (`none`) or fails. -/
structure FS where
  read : String → FileRead
  writeResult : String → Option String

/-- A write the lock code performs, with its file mode. -/
inductive FSOp where
  | writeFile (path : String) (lock : ApplyLock) (mode : Nat)
deriving DecidableEq, Repr

/-- `lockFileName`. -/
def lockFileName : String := ".lock"

/-- `filepath.Join(baseDir, fingerprint, lockFileName)`. -/
def lockPath (baseDir fingerprint : String) : String :=
  baseDir ++ "/" ++ fingerprint ++ "/" ++ lockFileName

/-- `CheckLock`: current holder, or `none` if no lock file exists. -/
def CheckLock (fs : FS) (baseDir fingerprint : String) :
    Except String (Option ApplyLock) :=
  match fs.read (lockPath baseDir fingerprint) with
  | .absent => .ok none
  | .readFailure e => .error ("read lock file: " ++ e)
  | .badJSON e => .error ("unmarshal lock file: " ++ e)
  | .goodLock l => .ok (some l)

/-- `AcquireLock`: fail on contention citing the holder, otherwise write
the new lock record with mode 0600. -/
def AcquireLock (fs : FS) (baseDir fingerprint : String) (lock : ApplyLock) :
    Except String (List FSOp) :=
  match CheckLock fs baseDir fingerprint with
  | .error e => .error ("check existing lock: " ++ e)
  | .ok (some existing) =>
      .error ("lock contention: " ++ existing.operation ++
        " operation (changeset " ++ existing.changeSetID ++ ", pid " ++
        decRepr existing.pid ++ ") started at " ++ existing.startedAt)
  | .ok none =>
      match fs.writeResult (lockPath baseDir fingerprint) with
      | some e => .error ("write lock file: " ++ e)
      | none => .ok [FSOp.writeFile (lockPath baseDir fingerprint) lock 0o600]

end inspect

namespace tuning

/-! ## `internal/tuning/apply.go` -/

open inspect

/-- A database command the pipeline issues (the trace alphabet). -/
inductive Cmd where
  | alterSystem (name value : String)
  | alterSystemReset (name : String)
  | reloadConf
  | getSetting (name : String)
deriving DecidableEq, Repr

/-- The `ApplyDB` capability: each operation's outcome for this run. -/
structure ApplyDB where
  getSetting : String → Except String PGSetting
  alterSystem : String → String → Except String Unit
  alterSystemReset : String → Except String Unit
  reloadConf : Except String Unit

/-- The loop of `DryRun`, accumulating the result and the trace of
issued `GetSetting` probes. -/
def dryRunLoop (db : ApplyDB) :
    List ParamChange → DryRunResult × List Cmd → DryRunResult × List Cmd
  | [], acc => acc
  | p :: rest, (result, trace) =>
      if !p.permission.allowed then
        dryRunLoop db rest
          ({ result with
             ok := false,
             errors := result.errors ++
               [p.name ++ ": permission denied (" ++ p.permission.reason ++ ")"] },
           trace)
      else
        let result :=
          if p.patroniOverride == PatroniOverridden then
            { result with warnings := result.warnings ++
                [p.name ++ ": parameter is overridden by Patroni DCS — ALTER SYSTEM change may be reverted on next Patroni restart"] }
          else result
        let result :=
          if p.needsRestart || p.context == "postmaster" then
            { result with warnings := result.warnings ++
                [p.name ++ ": requires PostgreSQL restart to take effect (context=" ++
                  p.context ++ ")"] }
          else result
        match db.getSetting p.name with
        | .error e =>
            dryRunLoop db rest
              ({ result with
                 ok := false,
                 errors := result.errors ++
                   [p.name ++ ": setting not found — " ++ e] },
               trace ++ [Cmd.getSetting p.name])
        | .ok _ => dryRunLoop db rest (result, trace ++ [Cmd.getSetting p.name])

/-- `DryRun`: validates a change-set without applying anything. -/
def DryRun (db : ApplyDB) (cs : ChangeSet) : DryRunResult × List Cmd :=
  dryRunLoop db cs.parameters ({ ok := true, warnings := [], errors := [] }, [])

/-- The loop of `Apply`: one `ALTER SYSTEM SET` per parameter, threading
the needs-reload flag; a failure aborts with the commands issued so far. -/
def applyLoop (db : ApplyDB) :
    List ParamChange → Bool → Except String Bool × List Cmd
  | [], needsReload => (.ok needsReload, [])
  | p :: rest, needsReload =>
      match db.alterSystem p.name p.newValue with
      | .error e =>
          (.error ("ALTER SYSTEM SET " ++ p.name ++ " = '" ++ p.newValue ++ "': " ++ e),
           [Cmd.alterSystem p.name p.newValue])
      | .ok _ =>
          let nr := needsReload || (!p.needsRestart && p.context != "postmaster")
          let res := applyLoop db rest nr
          (res.1, Cmd.alterSystem p.name p.newValue :: res.2)

/-- `Apply`: sets every parameter, reloads once if some parameter needs
it, then stamps `AppliedAt` with the current clock reading. -/
def Apply (db : ApplyDB) (now : Nat) (cs : ChangeSet) :
    Except String ChangeSet × List Cmd :=
  match applyLoop db cs.parameters false with
  | (.error e, tr) => (.error e, tr)
  | (.ok needsReload, tr) =>
      if needsReload then
        match db.reloadConf with
        | .error e => (.error ("pg_reload_conf(): " ++ e), tr ++ [Cmd.reloadConf])
        | .ok _ => (.ok { cs with appliedAt := some now }, tr ++ [Cmd.reloadConf])
      else (.ok { cs with appliedAt := some now }, tr)

/-- The loop of `Rollback`: `RESET` when the trimmed old value is empty,
else `SET` back to the old value. -/
def rollbackLoop (db : ApplyDB) :
    List ParamChange → Bool → Except String Bool × List Cmd
  | [], needsReload => (.ok needsReload, [])
  | p :: rest, needsReload =>
      let oldVal := p.oldValue.trim
      if oldVal == "" then
        match db.alterSystemReset p.name with
        | .error e =>
            (.error ("ALTER SYSTEM RESET " ++ p.name ++ ": " ++ e),
             [Cmd.alterSystemReset p.name])
        | .ok _ =>
            let nr := needsReload || (!p.needsRestart && p.context != "postmaster")
            let res := rollbackLoop db rest nr
            (res.1, Cmd.alterSystemReset p.name :: res.2)
      else
        match db.alterSystem p.name oldVal with
        | .error e =>
            (.error ("ALTER SYSTEM SET " ++ p.name ++ " = '" ++ oldVal ++
              "' (rollback): " ++ e),
             [Cmd.alterSystem p.name oldVal])
        | .ok _ =>
            let nr := needsReload || (!p.needsRestart && p.context != "postmaster")
            let res := rollbackLoop db rest nr
            (res.1, Cmd.alterSystem p.name oldVal :: res.2)

/-- `Rollback`: reverts every parameter, reloads once if needed, then
stamps `RolledBackAt`. -/
def Rollback (db : ApplyDB) (now : Nat) (cs : ChangeSet) :
    Except String ChangeSet × List Cmd :=
  match rollbackLoop db cs.parameters false with
  | (.error e, tr) => (.error e, tr)
  | (.ok needsReload, tr) =>
      if needsReload then
        match db.reloadConf with
        | .error e =>
            (.error ("pg_reload_conf() during rollback: " ++ e), tr ++ [Cmd.reloadConf])
        | .ok _ => (.ok { cs with rolledBackAt := some now }, tr ++ [Cmd.reloadConf])
      else (.ok { cs with rolledBackAt := some now }, tr)

end tuning

/-! ## Concrete fixtures used by witnesses -/

/-- An apply-capable database on which every operation succeeds. -/
def sampleApplyDB : tuning.ApplyDB :=
  { getSetting := fun n => .ok { name := n, setting := "4096", context := "user" },
    alterSystem := fun _ _ => .ok (),
    alterSystemReset := fun _ => .ok (),
    reloadConf := .ok () }

/-- A parameter whose permission record denies the change. -/
def paramDenied : inspect.ParamChange :=
  { name := "shared_buffers",
    permission := { allowed := false, reason := "requires superuser" } }

/-- An allowed, reload-only parameter that Patroni DCS overrides. -/
def paramOverridden : inspect.ParamChange :=
  { name := "work_mem", context := "user",
    permission := { allowed := true }, patroniOverride := "overridden" }

/-- An allowed `user`-context parameter. -/
def paramUser : inspect.ParamChange :=
  { name := "work_mem", oldValue := "4MB", newValue := "8MB", context := "user",
    permission := { allowed := true } }

/-- An allowed `postmaster`-context (restart-gated) parameter. -/
def paramPostmaster : inspect.ParamChange :=
  { name := "shared_buffers", oldValue := "1GB", newValue := "2GB",
    context := "postmaster", needsRestart := true,
    permission := { allowed := true } }

/-- A three-member cluster: a leader, a replica at the default lag
threshold exactly, and a replica one byte over it. -/
def sampleCluster : patroni.ClusterStatus :=
  { members :=
      [{ name := "pg-primary", host := "10.0.0.1", port := 5432, role := "leader",
         state := "running", lag := 0, timeline := 1, apiURL := "" },
       { name := "pg-replica-1", host := "10.0.0.2", port := 5432,
         role := "replica", state := "running", lag := 10485760, timeline := 1,
         apiURL := "" },
       { name := "pg-replica-2", host := "10.0.0.3", port := 5432,
         role := "replica", state := "running", lag := 10485761, timeline := 1,
         apiURL := "" }] }

/-- A PostgreSQL 12 database on which only the version read and the
settings query succeed: every other probe degrades. -/
def sampleDB12 : inspect.DB :=
  { serverVersionNum := .ok 120000,
    pgSettings := .ok [],
    systemIdentifier := .error "function pg_control_system() does not exist",
    resolvedAddr := .error "inet_server_addr failed",
    currentDatID := .error "pg_stat_activity failed",
    extensionLoaded := fun _ => .error "pg_extension probe failed",
    pgStatStatements := fun _ => .error "never queried",
    pgStatActivity := .error "permission denied for view pg_stat_activity",
    statBGWriter := .error "pg_stat_bgwriter failed",
    statWal := .error "never queried" }

/-! ## Shared characterization lemmas -/

/-- The `FindPrimary` loop returns the first member satisfying the
leader-or-master test, i.e. `List.find?` followed by `.name`. -/
theorem findPrimaryIn_eq_findFirst (ms : List patroni.Member) :
    failover.findPrimaryIn ms =
      (ms.find? (fun m => m.role == "leader" || m.role == "master")).map
        patroni.Member.name := by
  induction ms with
  | nil => rfl
  | cons m rest ih =>
      rw [failover.findPrimaryIn, List.find?_cons]
      by_cases h : (m.role == "leader" || m.role == "master") = true
      · simp [h]
      · simp only [Bool.not_eq_true] at h
        simp [h, ih]

/-! ## Claim theorems -/

/-- **C1** (code bug): `Member.Lag` is a plain `int64` field with no
custom `UnmarshalJSON`, so the `/cluster` body of the repository's own
test `TestGetClusterStatus_StringLag` — leader without a `lag` key,
replica with `lag: "unknown"` — fails to decode, while the spec, the
claim and that test all require it to decode with lag 0.  The
missing-lag half of the claim does hold: a member without a `lag` key
decodes to lag 0 without error. -/
theorem claim1_lag_unknown_fails_decode :
    patroni.decodeMembers
      [{ name := "pg-replica-1", role := "leader", state := "running",
         host := "10.0.0.2", port := 5432, timeline := 2, lag := none },
       { name := "pg-primary", role := "replica", state := "streaming",
         host := "10.0.0.1", port := 5432, timeline := 2,
         lag := some (.jstr "unknown") }] =
      .error "json: cannot unmarshal string into Go struct field Member.lag of type int64"
    ∧
    patroni.decodeMembers
      [{ name := "pg-primary", role := "leader", state := "running",
         host := "10.0.0.1", port := 5432, timeline := 1, lag := none }] =
      .ok [{ name := "pg-primary", role := "leader", state := "running",
             host := "10.0.0.1", port := 5432, timeline := 1, lag := 0,
             apiURL := "" }] := by
  constructor <;> rfl

/-- **C2** (counterexample): for HTTP 500 — a non-2xx status other than
404/503 — `IsPrimary` returns `(false, nil)`, not the non-nil error the
claim requires. -/
theorem claim2_isPrimary_500_counterexample :
    patroni.IsPrimary (.response 500) = .ok false := by
  rfl

/-- **C2** (amended): `IsPrimary` returns `(true, nil)` for HTTP 200 and
`(false, nil)` for every other received status — including 404, 503 and
500 — and returns a non-nil error only when the request itself fails. -/
theorem claim2_isPrimary_amended (s : Nat) (e : String) :
    patroni.IsPrimary (.response 200) = .ok true ∧
    (s ≠ 200 → patroni.IsPrimary (.response s) = .ok false) ∧
    patroni.IsPrimary (.transportErr e) = .error ("check primary: " ++ e) := by
  refine ⟨rfl, fun h => ?_, rfl⟩
  simp [patroni.IsPrimary, h]

/-- **C2** witness: the amended behaviour at statuses 200 and 503 and at
a transport failure. -/
theorem claim2_isPrimary_amended_witness :
    patroni.IsPrimary (.response 200) = .ok true ∧
    patroni.IsPrimary (.response 503) = .ok false ∧
    patroni.IsPrimary (.transportErr "connection refused") =
      .error ("check primary: " ++ "connection refused") :=
  ⟨(claim2_isPrimary_amended 503 "connection refused").1,
   (claim2_isPrimary_amended 503 "connection refused").2.1 (by decide),
   (claim2_isPrimary_amended 503 "connection refused").2.2⟩

/-- **C9** (counterexample): `strings.TrimRight(baseURL, "/")` removes
every trailing slash, so for `"http://h:8008//"` the stored base URL is
neither the input nor the input with one trailing slash removed,
refuting "trimmed exactly once / at most one trailing `/` removed". -/
theorem claim9_trim_counterexample :
    patroni.newClientBaseURL "http://h:8008//" ≠ "http://h:8008//" ∧
    patroni.newClientBaseURL "http://h:8008//" ≠ "http://h:8008/" := by
  constructor <;> decide

/-- **C9** (amended): `NewClient` trims all trailing slashes from its
base URL, so base URLs differing only in trailing slashes — in
particular `http://h:8008/` and `http://h:8008` — store the same base
URL and issue identical request paths. -/
theorem claim9_trim_amended (s p : String) :
    patroni.newClientBaseURL (s ++ "/") = patroni.newClientBaseURL s ∧
    patroni.requestURL (s ++ "/") p = patroni.requestURL s p ∧
    patroni.requestURL "http://h:8008/" "/cluster" =
      patroni.requestURL "http://h:8008" "/cluster" := by
  have hbase : patroni.newClientBaseURL (s ++ "/") = patroni.newClientBaseURL s := by
    unfold patroni.newClientBaseURL
    have hdata : (s ++ "/").data = s.data ++ ['/'] := by
      rw [String.data_append]
    rw [hdata, List.reverse_append]
    simp [List.dropWhile]
  exact ⟨hbase, by unfold patroni.requestURL; rw [hbase], by decide⟩

/-- **C10**: `FindPrimary` scans the member list in input order and
returns the name of the first member whose role is `leader` or `master`,
with no error as long as one exists (even when, against the documented
invariant, several such members are present); when none exists it
reports the member count. -/
theorem claim10_findPrimary_first (cs : patroni.ClusterStatus) :
    failover.FindPrimary cs =
      match cs.members.find? (fun m => m.role == "leader" || m.role == "master") with
      | some m => Except.ok m.name
      | none =>
          Except.error ("no primary found in cluster (members: " ++
            decRepr cs.members.length ++ ")") := by
  rw [failover.FindPrimary, findPrimaryIn_eq_findFirst]
  cases cs.members.find? (fun m => m.role == "leader" || m.role == "master") <;> rfl

/-- **C8**: when the fingerprint's lock file exists and parses,
`AcquireLock` fails — whoever the new holder is — with an error citing
the existing holder's operation, changeset id, pid and start time; when
no lock file exists (and the write succeeds) it writes the new lock
record with mode 0600 and succeeds. -/
theorem claim8_acquireLock (fs : inspect.FS) (baseDir fp : String)
    (newLock l : inspect.ApplyLock) :
    (fs.read (inspect.lockPath baseDir fp) = .goodLock l →
      inspect.AcquireLock fs baseDir fp newLock =
        .error ("lock contention: " ++ l.operation ++ " operation (changeset " ++
          l.changeSetID ++ ", pid " ++ decRepr l.pid ++ ") started at " ++
          l.startedAt)) ∧
    (fs.read (inspect.lockPath baseDir fp) = .absent →
      fs.writeResult (inspect.lockPath baseDir fp) = none →
      inspect.AcquireLock fs baseDir fp newLock =
        .ok [.writeFile (inspect.lockPath baseDir fp) newLock 0o600]) := by
  constructor
  · intro h
    simp [inspect.AcquireLock, inspect.CheckLock, h]
  · intro h hw
    simp [inspect.AcquireLock, inspect.CheckLock, h, hw]

/-- **C8** witness: a held lock refuses a second, different holder with
the first holder's identity; an absent lock is acquired with mode 0600. -/
theorem claim8_acquireLock_witness :
    inspect.AcquireLock
      { read := fun _ => .goodLock
          { changeSetID := "cs-1", pid := 4242,
            startedAt := "2024-01-01T00:00:00Z", operation := "apply" },
        writeResult := fun _ => none }
      "/root/.pgdba/snapshots" "deadbeef"
      { changeSetID := "cs-2", pid := 4243,
        startedAt := "2024-01-01T00:05:00Z", operation := "rollback" } =
      .error ("lock contention: " ++ "apply" ++ " operation (changeset " ++
        "cs-1" ++ ", pid " ++ decRepr 4242 ++ ") started at " ++
        "2024-01-01T00:00:00Z") ∧
    inspect.AcquireLock
      { read := fun _ => .absent, writeResult := fun _ => none }
      "/root/.pgdba/snapshots" "deadbeef"
      { changeSetID := "cs-2", pid := 4243,
        startedAt := "2024-01-01T00:05:00Z", operation := "apply" } =
      .ok [.writeFile (inspect.lockPath "/root/.pgdba/snapshots" "deadbeef")
            { changeSetID := "cs-2", pid := 4243,
              startedAt := "2024-01-01T00:05:00Z", operation := "apply" } 0o600] :=
  ⟨(claim8_acquireLock
      { read := fun _ => .goodLock
          { changeSetID := "cs-1", pid := 4242,
            startedAt := "2024-01-01T00:00:00Z", operation := "apply" },
        writeResult := fun _ => none }
      "/root/.pgdba/snapshots" "deadbeef"
      { changeSetID := "cs-2", pid := 4243,
        startedAt := "2024-01-01T00:05:00Z", operation := "rollback" }
      { changeSetID := "cs-1", pid := 4242,
        startedAt := "2024-01-01T00:00:00Z", operation := "apply" }).1 rfl,
   (claim8_acquireLock
      { read := fun _ => .absent, writeResult := fun _ => none }
      "/root/.pgdba/snapshots" "deadbeef"
      { changeSetID := "cs-2", pid := 4243,
        startedAt := "2024-01-01T00:05:00Z", operation := "apply" }
      { changeSetID := "cs-1", pid := 4242,
        startedAt := "2024-01-01T00:00:00Z", operation := "apply" }).2 rfl rfl⟩

/-- **C4**: `ComputeFingerprint` is deterministic; tier-0 fingerprints
depend only on the system identifier and tier-1 fingerprints only on the
resolved (address, port, datid) triple — in particular never on the
configured host or port; changing a tier-1 identity's resolved port
changes the hash input (and hence, SHA-256 collisions aside, the
fingerprint); and the tier prefix `t0:`/`t1:`/`t2:` heads the hash
input. -/
theorem claim4_fingerprint (a b : inspect.ClusterIdentity) (p q : Nat) :
    inspect.ComputeFingerprint a = inspect.ComputeFingerprint a ∧
    (a.tier = inspect.TierSystemIdentifier → b.tier = inspect.TierSystemIdentifier →
      a.systemIdentifier = b.systemIdentifier →
      inspect.ComputeFingerprint a = inspect.ComputeFingerprint b) ∧
    (a.tier = inspect.TierResolvedAddr → b.tier = inspect.TierResolvedAddr →
      a.resolvedAddr = b.resolvedAddr → a.resolvedPort = b.resolvedPort →
      a.datID = b.datID →
      inspect.ComputeFingerprint a = inspect.ComputeFingerprint b) ∧
    (a.tier = inspect.TierResolvedAddr → p ≠ q →
      inspect.hashInput { a with resolvedPort := p } ≠
        inspect.hashInput { a with resolvedPort := q }) ∧
    ((a.tier = inspect.TierSystemIdentifier →
        (inspect.hashInput a).data.take 3 = "t0:".data) ∧
     (a.tier = inspect.TierResolvedAddr →
        (inspect.hashInput a).data.take 3 = "t1:".data) ∧
     (a.tier = inspect.TierConfigAddr →
        (inspect.hashInput a).data.take 3 = "t2:".data)) := by
  have hpfx : ∀ (t s : String), t.data.length = 3 → (t ++ s).data.take 3 = t.data := by
    intro t s hlen
    rw [String.data_append, ← hlen, List.take_left]
  refine ⟨rfl, ?_, ?_, ?_, ?_, ?_, ?_⟩
  · intro ha hb hsys
    unfold inspect.ComputeFingerprint
    congr 2
    simp [inspect.hashInput, ha, hb, hsys, inspect.TierSystemIdentifier]
  · intro ha hb haddr hport hdat
    unfold inspect.ComputeFingerprint
    congr 2
    simp [inspect.hashInput, ha, hb, haddr, hport, hdat, inspect.TierResolvedAddr,
      inspect.TierSystemIdentifier]
  · intro ha hpq heq
    simp only [inspect.hashInput, inspect.TierResolvedAddr,
      inspect.TierSystemIdentifier, inspect.TierConfigAddr, ha,
      one_ne_zero, if_false, if_true, reduceIte] at heq
    have hdata := congrArg String.data heq
    simp only [String.data_append, List.append_assoc] at hdata
    have h1 := List.append_cancel_left hdata
    have h2 := List.append_cancel_left h1
    have h3 := List.append_cancel_left h2
    have h5 : (decRepr p).data = (decRepr q).data := List.append_cancel_right h3
    exact hpq (decRepr_injective (String.ext h5))
  · intro ha
    simp only [inspect.hashInput, inspect.TierSystemIdentifier, ha, reduceIte]
    exact hpfx "t0:" _ (by decide)
  · intro ha
    simp only [inspect.hashInput, inspect.TierResolvedAddr,
      inspect.TierSystemIdentifier, ha, one_ne_zero, if_false, reduceIte]
    rw [show ("t1:" ++ a.resolvedAddr ++ ":" ++ decRepr a.resolvedPort ++ ":" ++
      decRepr a.datID) = "t1:" ++ (a.resolvedAddr ++ ":" ++ decRepr a.resolvedPort ++
      ":" ++ decRepr a.datID) from by simp [String.append_assoc]]
    exact hpfx "t1:" _ (by decide)
  · intro ha
    simp only [inspect.hashInput, inspect.TierConfigAddr,
      inspect.TierSystemIdentifier, inspect.TierResolvedAddr, ha, reduceIte]
    rw [show ("t2:" ++ a.configHost ++ ":" ++ decRepr a.configPort) =
      "t2:" ++ (a.configHost ++ ":" ++ decRepr a.configPort) from by
        simp [String.append_assoc]]
    exact hpfx "t2:" _ (by decide)

/-- **C4** witness: concrete tier-0 and tier-1 identities differing only
in configured host/port hash identically; tier-1 identities with
resolved ports 5432 and 5433 have different hash inputs. -/
theorem claim4_fingerprint_witness :
    inspect.ComputeFingerprint
        { tier := 0, systemIdentifier := "7234838458393485", configHost := "a",
          configPort := 1 } =
      inspect.ComputeFingerprint
        { tier := 0, systemIdentifier := "7234838458393485", configHost := "b",
          configPort := 2 } ∧
    inspect.ComputeFingerprint
        { tier := 1, resolvedAddr := "10.0.0.1", resolvedPort := 5432,
          datID := 16384, configHost := "a", configPort := 1 } =
      inspect.ComputeFingerprint
        { tier := 1, resolvedAddr := "10.0.0.1", resolvedPort := 5432,
          datID := 16384, configHost := "b", configPort := 2 } ∧
    inspect.hashInput
        { tier := 1, resolvedAddr := "10.0.0.1", resolvedPort := 5432,
          datID := 16384 } ≠
      inspect.hashInput
        { tier := 1, resolvedAddr := "10.0.0.1", resolvedPort := 5433,
          datID := 16384 } :=
  ⟨(claim4_fingerprint
      { tier := 0, systemIdentifier := "7234838458393485", configHost := "a",
        configPort := 1 }
      { tier := 0, systemIdentifier := "7234838458393485", configHost := "b",
        configPort := 2 } 0 0).2.1 rfl rfl rfl,
   (claim4_fingerprint
      { tier := 1, resolvedAddr := "10.0.0.1", resolvedPort := 5432,
        datID := 16384, configHost := "a", configPort := 1 }
      { tier := 1, resolvedAddr := "10.0.0.1", resolvedPort := 5432,
        datID := 16384, configHost := "b", configPort := 2 } 0 0).2.2.1
      rfl rfl rfl rfl rfl,
   (claim4_fingerprint
      { tier := 1, resolvedAddr := "10.0.0.1", datID := 16384 }
      { tier := 1, resolvedAddr := "10.0.0.1", datID := 16384 }
      5432 5433).2.2.2.1 rfl (by decide)⟩

/-- The dry-run loop preserves the invariant that the overall flag is
set exactly while the error list is empty. -/
theorem dryRunLoop_ok_iff_errors (db : tuning.ApplyDB) :
    ∀ (ps : List inspect.ParamChange) (res : inspect.DryRunResult) (tr : List tuning.Cmd),
      res.ok = res.errors.isEmpty →
      (tuning.dryRunLoop db ps (res, tr)).1.ok =
        (tuning.dryRunLoop db ps (res, tr)).1.errors.isEmpty := by
  intro ps
  induction ps with
  | nil => intro res tr h; simpa [tuning.dryRunLoop] using h
  | cons p rest ih =>
      intro res tr h
      rw [tuning.dryRunLoop]
      by_cases hal : p.permission.allowed = true
      · simp only [hal, Bool.not_true, Bool.false_eq_true, if_false, reduceIte]
        by_cases hov : (p.patroniOverride == inspect.PatroniOverridden) = true
        · by_cases hre : (p.needsRestart || p.context == "postmaster") = true
          · simp only [hov, hre, if_true, reduceIte]
            cases hgs : db.getSetting p.name with
            | error e => exact ih _ _ (by cases res.errors <;> simp)
            | ok st => exact ih _ _ (by simpa using h)
          · simp only [hov, hre, if_true, if_false, reduceIte]
            cases hgs : db.getSetting p.name with
            | error e => exact ih _ _ (by cases res.errors <;> simp)
            | ok st => exact ih _ _ (by simpa using h)
        · by_cases hre : (p.needsRestart || p.context == "postmaster") = true
          · simp only [hov, hre, if_true, if_false, reduceIte]
            cases hgs : db.getSetting p.name with
            | error e => exact ih _ _ (by cases res.errors <;> simp)
            | ok st => exact ih _ _ (by simpa using h)
          · simp only [hov, hre, if_false, reduceIte]
            cases hgs : db.getSetting p.name with
            | error e => exact ih _ _ (by cases res.errors <;> simp)
            | ok st => exact ih _ _ (by simpa using h)
      · simp only [Bool.not_eq_true] at hal
        simp only [hal, Bool.not_false, if_true, reduceIte]
        exact ih _ _ (by cases res.errors <;> simp)

/-- The dry-run loop only ever appends `GetSetting` probes to the trace:
no `ALTER SYSTEM`, no `RESET`, no reload. -/
theorem dryRunLoop_trace_only_probes (db : tuning.ApplyDB) :
    ∀ (ps : List inspect.ParamChange) (res : inspect.DryRunResult) (tr : List tuning.Cmd),
      (∀ c ∈ tr, ∃ n, c = tuning.Cmd.getSetting n) →
      ∀ c ∈ (tuning.dryRunLoop db ps (res, tr)).2, ∃ n, c = tuning.Cmd.getSetting n := by
  intro ps
  induction ps with
  | nil => intro res tr h; simpa [tuning.dryRunLoop] using h
  | cons p rest ih =>
      intro res tr h
      rw [tuning.dryRunLoop]
      have hgrow : ∀ c ∈ tr ++ [tuning.Cmd.getSetting p.name],
          ∃ n, c = tuning.Cmd.getSetting n := by
        intro c hc
        rcases List.mem_append.mp hc with hc | hc
        · exact h c hc
        · exact ⟨p.name, by simpa using hc⟩
      by_cases hal : p.permission.allowed = true
      · simp only [hal, Bool.not_true, Bool.false_eq_true, if_false, reduceIte]
        cases hgs : db.getSetting p.name with
        | error e =>
            by_cases hov : (p.patroniOverride == inspect.PatroniOverridden) = true <;>
              by_cases hre : (p.needsRestart || p.context == "postmaster") = true <;>
                simp only [hov, hre, if_true, if_false, reduceIte, hgs] <;>
                  exact ih _ _ hgrow
        | ok st =>
            by_cases hov : (p.patroniOverride == inspect.PatroniOverridden) = true <;>
              by_cases hre : (p.needsRestart || p.context == "postmaster") = true <;>
                simp only [hov, hre, if_true, if_false, reduceIte, hgs] <;>
                  exact ih _ _ hgrow
      · simp only [Bool.not_eq_true] at hal
        simp only [hal, Bool.not_false, if_true, reduceIte]
        exact ih _ _ h

/-- **C6**: dry-run's flag is false exactly when an error was recorded
(warnings alone never clear it); a single permission-denied parameter
yields not-OK with exactly the one "permission denied (<reason>)" error
and no warnings; a single allowed, Patroni-overridden, no-restart,
locatable parameter yields OK with exactly one warning; and dry-run
issues only `GetSetting` probes — never `ALTER SYSTEM` or a reload. -/
theorem claim6_dryRun (db : tuning.ApplyDB) (cs : inspect.ChangeSet)
    (p : inspect.ParamChange) (st : inspect.PGSetting) :
    ((tuning.DryRun db cs).1.ok = (tuning.DryRun db cs).1.errors.isEmpty) ∧
    (∀ c ∈ (tuning.DryRun db cs).2, ∃ n, c = tuning.Cmd.getSetting n) ∧
    (cs.parameters = [p] → p.permission.allowed = false →
      (tuning.DryRun db cs).1 =
        { ok := false, warnings := [],
          errors := [p.name ++ ": permission denied (" ++ p.permission.reason ++ ")"] }) ∧
    (cs.parameters = [p] → p.permission.allowed = true →
      p.patroniOverride = inspect.PatroniOverridden →
      p.needsRestart = false → p.context ≠ "postmaster" →
      db.getSetting p.name = .ok st →
      (tuning.DryRun db cs).1 =
        { ok := true,
          warnings := [p.name ++
            ": parameter is overridden by Patroni DCS — ALTER SYSTEM change may be reverted on next Patroni restart"],
          errors := [] }) := by
  refine ⟨?_, ?_, ?_, ?_⟩
  · exact dryRunLoop_ok_iff_errors db cs.parameters _ _ rfl
  · exact dryRunLoop_trace_only_probes db cs.parameters _ _ (by simp)
  · intro hps hal
    simp [tuning.DryRun, hps, tuning.dryRunLoop, hal]
  · intro hps hal hov hre hctx hgs
    simp [tuning.DryRun, hps, tuning.dryRunLoop, hal, hov, hre, hctx, hgs]

/-- **C6** witness: the two single-parameter scenarios on a database
where every setting is locatable. -/
theorem claim6_dryRun_witness :
    (tuning.DryRun sampleApplyDB { id := "cs-1", parameters := [paramDenied] }).1 =
      { ok := false, warnings := [],
        errors := [paramDenied.name ++ ": permission denied (" ++
          paramDenied.permission.reason ++ ")"] } ∧
    (tuning.DryRun sampleApplyDB { id := "cs-2", parameters := [paramOverridden] }).1 =
      { ok := true,
        warnings := [paramOverridden.name ++
          ": parameter is overridden by Patroni DCS — ALTER SYSTEM change may be reverted on next Patroni restart"],
        errors := [] } :=
  ⟨(claim6_dryRun sampleApplyDB { id := "cs-1", parameters := [paramDenied] }
      paramDenied { name := "work_mem", setting := "4096", context := "user" }).2.2.1
      rfl rfl,
   (claim6_dryRun sampleApplyDB { id := "cs-2", parameters := [paramOverridden] }
      paramOverridden { name := "work_mem", setting := "4096", context := "user" }).2.2.2
      rfl rfl rfl rfl (by decide) rfl⟩

/-- When every `ALTER SYSTEM` succeeds, the apply loop issues exactly
one `ALTER SYSTEM SET` per parameter in list order and accumulates the
needs-reload flag as "some parameter is not restart-gated and not
`postmaster`". -/
theorem applyLoop_all_ok (db : tuning.ApplyDB)
    (hAlter : ∀ n v, db.alterSystem n v = .ok ()) :
    ∀ (ps : List inspect.ParamChange) (b : Bool),
      tuning.applyLoop db ps b =
        (.ok (b || ps.any (fun p => !p.needsRestart && p.context != "postmaster")),
         ps.map (fun p => tuning.Cmd.alterSystem p.name p.newValue)) := by
  intro ps
  induction ps with
  | nil => intro b; simp [tuning.applyLoop]
  | cons p rest ih =>
      intro b
      rw [tuning.applyLoop, hAlter p.name p.newValue]
      simp only [ih, List.any_cons, List.map_cons, Bool.or_assoc]

/-- When every `ALTER SYSTEM` / `RESET` succeeds, the rollback loop
issues one revert command per parameter in list order (`RESET` when the
trimmed old value is empty, `SET` back otherwise) and accumulates the
same needs-reload flag as apply. -/
theorem rollbackLoop_all_ok (db : tuning.ApplyDB)
    (hAlter : ∀ n v, db.alterSystem n v = .ok ())
    (hReset : ∀ n, db.alterSystemReset n = .ok ()) :
    ∀ (ps : List inspect.ParamChange) (b : Bool),
      tuning.rollbackLoop db ps b =
        (.ok (b || ps.any (fun p => !p.needsRestart && p.context != "postmaster")),
         ps.map (fun p =>
           if p.oldValue.trim == "" then tuning.Cmd.alterSystemReset p.name
           else tuning.Cmd.alterSystem p.name p.oldValue.trim)) := by
  intro ps
  induction ps with
  | nil => intro b; simp [tuning.rollbackLoop]
  | cons p rest ih =>
      intro b
      rw [tuning.rollbackLoop]
      by_cases hold : (p.oldValue.trim == "") = true
      · have hold' : p.oldValue.trim = "" := by simpa using hold
        simp [hold, hold', hReset p.name, ih, List.any_cons, Bool.or_assoc]
      · have hold' : ¬p.oldValue.trim = "" := by simpa using hold
        simp [hold, hold', hAlter p.name p.oldValue.trim, ih, List.any_cons,
          Bool.or_assoc]

/-- **C7**: when all database operations succeed, `Apply` issues one
`ALTER SYSTEM SET` per parameter in change-set order followed by exactly
one reload if and only if some parameter has `NeedsRestart = false` and
a context other than `postmaster` (so one reload for a single
`user`-context parameter, zero for a single `postmaster`-context one),
and stamps `AppliedAt`; `Rollback` likewise succeeds and stamps
`RolledBackAt`. -/
theorem claim7_apply_rollback (db : tuning.ApplyDB) (now : Nat)
    (cs : inspect.ChangeSet)
    (hAlter : ∀ n v, db.alterSystem n v = .ok ())
    (hReset : ∀ n, db.alterSystemReset n = .ok ())
    (hReload : db.reloadConf = .ok ()) :
    (tuning.Apply db now cs).1 = .ok { cs with appliedAt := some now } ∧
    (tuning.Apply db now cs).2 =
      cs.parameters.map (fun p => tuning.Cmd.alterSystem p.name p.newValue) ++
        (if cs.parameters.any (fun p => !p.needsRestart && p.context != "postmaster")
         then [tuning.Cmd.reloadConf] else []) ∧
    ((tuning.Apply db now cs).2.count tuning.Cmd.reloadConf =
      if cs.parameters.any (fun p => !p.needsRestart && p.context != "postmaster")
      then 1 else 0) ∧
    (tuning.Rollback db now cs).1 = .ok { cs with rolledBackAt := some now } := by
  have hmapcount :
      (cs.parameters.map
        (fun p => tuning.Cmd.alterSystem p.name p.newValue)).count
          tuning.Cmd.reloadConf = 0 := by
    rw [List.count_eq_zero]
    intro hmem
    rcases List.mem_map.mp hmem with ⟨p, _, hp⟩
    exact absurd hp (by simp)
  have happly :
      tuning.Apply db now cs =
        (.ok { cs with appliedAt := some now },
         cs.parameters.map (fun p => tuning.Cmd.alterSystem p.name p.newValue) ++
           (if cs.parameters.any (fun p => !p.needsRestart && p.context != "postmaster")
            then [tuning.Cmd.reloadConf] else [])) := by
    rw [tuning.Apply, applyLoop_all_ok db hAlter cs.parameters false]
    by_cases hany :
        cs.parameters.any (fun p => !p.needsRestart && p.context != "postmaster") = true
    · simp [hany, hReload]
    · simp only [Bool.not_eq_true] at hany
      simp [hany]
  have hroll :
      (tuning.Rollback db now cs).1 = .ok { cs with rolledBackAt := some now } := by
    rw [tuning.Rollback, rollbackLoop_all_ok db hAlter hReset cs.parameters false]
    by_cases hany :
        cs.parameters.any (fun p => !p.needsRestart && p.context != "postmaster") = true
    · simp [hany, hReload]
    · simp only [Bool.not_eq_true] at hany
      simp [hany]
  refine ⟨by rw [happly], by rw [happly], ?_, hroll⟩
  rw [happly]
  by_cases hany :
      cs.parameters.any (fun p => !p.needsRestart && p.context != "postmaster") = true
  · simp [hany, List.count_append, hmapcount]
  · simp only [Bool.not_eq_true] at hany
    simp [hany, List.count_append, hmapcount]

/-- **C7** witness: a single `user`-context parameter produces exactly
one reload and stamps `AppliedAt`; a single `postmaster`-context
parameter produces zero reloads; rollback stamps `RolledBackAt`. -/
theorem claim7_apply_rollback_witness :
    (tuning.Apply sampleApplyDB 100 { id := "cs-3", parameters := [paramUser] }).1 =
      .ok { id := "cs-3", parameters := [paramUser], appliedAt := some 100 } ∧
    (tuning.Apply sampleApplyDB 100
        { id := "cs-3", parameters := [paramUser] }).2.count tuning.Cmd.reloadConf = 1 ∧
    (tuning.Apply sampleApplyDB 100
        { id := "cs-4", parameters := [paramPostmaster] }).2.count
        tuning.Cmd.reloadConf = 0 ∧
    (tuning.Rollback sampleApplyDB 100 { id := "cs-3", parameters := [paramUser] }).1 =
      .ok { id := "cs-3", parameters := [paramUser], rolledBackAt := some 100 } :=
  ⟨(claim7_apply_rollback sampleApplyDB 100 { id := "cs-3", parameters := [paramUser] }
      (fun _ _ => rfl) (fun _ => rfl) rfl).1,
   (claim7_apply_rollback sampleApplyDB 100 { id := "cs-3", parameters := [paramUser] }
      (fun _ _ => rfl) (fun _ => rfl) rfl).2.2.1,
   (claim7_apply_rollback sampleApplyDB 100
      { id := "cs-4", parameters := [paramPostmaster] }
      (fun _ _ => rfl) (fun _ => rfl) rfl).2.2.1,
   (claim7_apply_rollback sampleApplyDB 100 { id := "cs-3", parameters := [paramUser] }
      (fun _ _ => rfl) (fun _ => rfl) rfl).2.2.2⟩

/-- `collectPGSettings` is keyed `pg_settings`. -/
theorem collectPGSettings_key (db : inspect.DB) :
    (inspect.collectPGSettings db).1 = "pg_settings" := by
  cases h : db.pgSettings <;> simp [inspect.collectPGSettings, h]

/-- `collectPGSettings` is marked by its own query's outcome alone. -/
theorem collectPGSettings_result (db : inspect.DB) :
    (inspect.collectPGSettings db).2 =
      match db.pgSettings with
      | .error e => { available := false, error := e }
      | .ok l => { available := true, data := some (.settings l) } := by
  cases h : db.pgSettings <;> simp [inspect.collectPGSettings, h]

/-- `collectPGStatActivity` is keyed `pg_stat_activity`. -/
theorem collectPGStatActivity_key (db : inspect.DB) :
    (inspect.collectPGStatActivity db).1 = "pg_stat_activity" := by
  cases h : db.pgStatActivity <;> simp [inspect.collectPGStatActivity, h]

/-- `collectPGStatActivity` is marked by its own query's outcome alone. -/
theorem collectPGStatActivity_result (db : inspect.DB) :
    (inspect.collectPGStatActivity db).2 =
      match db.pgStatActivity with
      | .error e => { available := false, error := e }
      | .ok l => { available := true, data := some (.activity l) } := by
  cases h : db.pgStatActivity <;> simp [inspect.collectPGStatActivity, h]

/-- `collectStatBGWriter` is keyed `pg_stat_bgwriter`. -/
theorem collectStatBGWriter_key (db : inspect.DB) :
    (inspect.collectStatBGWriter db).1 = "pg_stat_bgwriter" := by
  cases h : db.statBGWriter <;> simp [inspect.collectStatBGWriter, h]

/-- `collectStatBGWriter` is marked by its own query's outcome alone. -/
theorem collectStatBGWriter_result (db : inspect.DB) :
    (inspect.collectStatBGWriter db).2 =
      match db.statBGWriter with
      | .error e => { available := false, error := e }
      | .ok s => { available := true, data := some (.bgwriter s) } := by
  cases h : db.statBGWriter <;> simp [inspect.collectStatBGWriter, h]

/-- `collectStatWal` is keyed `pg_stat_wal`. -/
theorem collectStatWal_key (db : inspect.DB) (v : Nat) :
    (inspect.collectStatWal db v).1 = "pg_stat_wal" := by
  by_cases hv : v < 140000
  · simp [inspect.collectStatWal, hv]
  · cases h : db.statWal <;> simp [inspect.collectStatWal, hv, h]

/-- `collectStatWal`: pre-marked below PG 14 without consulting the
query's outcome, otherwise marked by it. -/
theorem collectStatWal_result (db : inspect.DB) (v : Nat) :
    (inspect.collectStatWal db v).2 =
      if v < 140000 then
        { available := false, error := "requires PostgreSQL 14+" }
      else
        match db.statWal with
        | .error e => { available := false, error := e }
        | .ok s => { available := true, data := some (.wal s) } := by
  by_cases hv : v < 140000
  · simp [inspect.collectStatWal, hv]
  · cases h : db.statWal <;> simp [inspect.collectStatWal, hv, h]

/-- `collectPGStatStatements` over the probes of `collectPrereqs` is
keyed `pg_stat_statements`. -/
theorem collectPGStatStatements_key (db : inspect.DB) (v : Nat) :
    (inspect.collectPGStatStatements db (inspect.collectPrereqs db v)).1 =
      "pg_stat_statements" := by
  cases hext : db.extensionLoaded "pg_stat_statements" with
  | error e => simp [inspect.collectPGStatStatements, inspect.collectPrereqs, hext]
  | ok b =>
      cases b with
      | false => simp [inspect.collectPGStatStatements, inspect.collectPrereqs, hext]
      | true =>
          cases hrows : db.pgStatStatements 100 <;>
            simp [inspect.collectPGStatStatements, inspect.collectPrereqs, hext, hrows]

/-- `collectPGStatStatements`: the rows query is consulted only when the
extension probe returned `(true, nil)`. -/
theorem collectPGStatStatements_result (db : inspect.DB) (v : Nat) :
    (inspect.collectPGStatStatements db (inspect.collectPrereqs db v)).2 =
      match db.extensionLoaded "pg_stat_statements" with
      | .ok true =>
          match db.pgStatStatements 100 with
          | .error e => { available := false, error := e }
          | .ok rows => { available := true, data := some (.statements rows) }
      | _ =>
          { available := false,
            error := "pg_stat_statements extension not loaded" } := by
  cases hext : db.extensionLoaded "pg_stat_statements" with
  | error e => simp [inspect.collectPGStatStatements, inspect.collectPrereqs, hext]
  | ok b =>
      cases b with
      | false => simp [inspect.collectPGStatStatements, inspect.collectPrereqs, hext]
      | true =>
          cases hrows : db.pgStatStatements 100 <;>
            simp [inspect.collectPGStatStatements, inspect.collectPrereqs, hext, hrows]

/-- `collectPGSettings` as a literal key/payload pair. -/
theorem collectPGSettings_pair (db : inspect.DB) :
    inspect.collectPGSettings db =
      ("pg_settings", (inspect.collectPGSettings db).2) :=
  Prod.ext (collectPGSettings_key db) rfl

/-- `collectPGStatActivity` as a literal key/payload pair. -/
theorem collectPGStatActivity_pair (db : inspect.DB) :
    inspect.collectPGStatActivity db =
      ("pg_stat_activity", (inspect.collectPGStatActivity db).2) :=
  Prod.ext (collectPGStatActivity_key db) rfl

/-- `collectStatBGWriter` as a literal key/payload pair. -/
theorem collectStatBGWriter_pair (db : inspect.DB) :
    inspect.collectStatBGWriter db =
      ("pg_stat_bgwriter", (inspect.collectStatBGWriter db).2) :=
  Prod.ext (collectStatBGWriter_key db) rfl

/-- `collectStatWal` as a literal key/payload pair. -/
theorem collectStatWal_pair (db : inspect.DB) (v : Nat) :
    inspect.collectStatWal db v =
      ("pg_stat_wal", (inspect.collectStatWal db v).2) :=
  Prod.ext (collectStatWal_key db v) rfl

/-- `collectPGStatStatements` as a literal key/payload pair. -/
theorem collectPGStatStatements_pair (db : inspect.DB) (v : Nat) :
    inspect.collectPGStatStatements db (inspect.collectPrereqs db v) =
      ("pg_stat_statements",
        (inspect.collectPGStatStatements db (inspect.collectPrereqs db v)).2) :=
  Prod.ext (collectPGStatStatements_key db v) rfl

/-- `Collect` on a readable version: the snapshot and its section list. -/
theorem collect_ok (db : inspect.DB) (cfg : inspect.SamplingConfig)
    (host : String) (port : Nat) (v : Nat)
    (hv : db.serverVersionNum = .ok v) :
    inspect.Collect db cfg host port =
      .ok { identity := inspect.buildIdentity db v host port,
            sections :=
              [("prereqs",
                { available := true,
                  data := some (.prereqs (inspect.collectPrereqs db v)) }),
               inspect.collectPGSettings db,
               inspect.collectPGStatActivity db,
               inspect.collectPGStatStatements db (inspect.collectPrereqs db v),
               inspect.collectStatBGWriter db,
               inspect.collectStatWal db v] } := by
  simp [inspect.Collect, hv]

/-- **C5**: whenever the server version is readable, `Collect` returns a
snapshot (never an error); every section is present, each marked by the
outcome of its own query alone; below PostgreSQL 14 the `pg_stat_wal`
section is pre-marked "requires PostgreSQL 14+" and the snapshot does
not depend on the `pg_stat_wal` query at all; and the
`pg_stat_statements` rows are consulted only when the extension probe
reported the extension available, the snapshot being independent of the
rows query otherwise. -/
theorem claim5_collect (db : inspect.DB) (cfg : inspect.SamplingConfig)
    (host : String) (port : Nat) (v : Nat)
    (hv : db.serverVersionNum = .ok v) :
    ∃ snap, inspect.Collect db cfg host port = .ok snap ∧
      snap.sections.lookup "prereqs" =
        some { available := true,
               data := some (.prereqs (inspect.collectPrereqs db v)) } ∧
      snap.sections.lookup "pg_settings" =
        some (match db.pgSettings with
          | .error e => { available := false, error := e }
          | .ok l => { available := true, data := some (.settings l) }) ∧
      snap.sections.lookup "pg_stat_activity" =
        some (match db.pgStatActivity with
          | .error e => { available := false, error := e }
          | .ok l => { available := true, data := some (.activity l) }) ∧
      snap.sections.lookup "pg_stat_bgwriter" =
        some (match db.statBGWriter with
          | .error e => { available := false, error := e }
          | .ok s => { available := true, data := some (.bgwriter s) }) ∧
      (v < 140000 →
        snap.sections.lookup "pg_stat_wal" =
          some { available := false, error := "requires PostgreSQL 14+" }) ∧
      (¬v < 140000 →
        snap.sections.lookup "pg_stat_wal" =
          some (match db.statWal with
            | .error e => { available := false, error := e }
            | .ok s => { available := true, data := some (.wal s) })) ∧
      (¬db.extensionLoaded "pg_stat_statements" = .ok true →
        snap.sections.lookup "pg_stat_statements" =
          some { available := false,
                 error := "pg_stat_statements extension not loaded" }) ∧
      (db.extensionLoaded "pg_stat_statements" = .ok true →
        snap.sections.lookup "pg_stat_statements" =
          some (match db.pgStatStatements 100 with
            | .error e => { available := false, error := e }
            | .ok rows => { available := true, data := some (.statements rows) })) ∧
      (v < 140000 → ∀ r,
        inspect.Collect { db with statWal := r } cfg host port =
          inspect.Collect db cfg host port) ∧
      (¬db.extensionLoaded "pg_stat_statements" = .ok true → ∀ r,
        inspect.Collect { db with pgStatStatements := r } cfg host port =
          inspect.Collect db cfg host port) := by
  refine ⟨_, collect_ok db cfg host port v hv, ?_, ?_, ?_, ?_, ?_, ?_, ?_, ?_, ?_, ?_⟩
  all_goals try rw [collectPGSettings_pair db, collectPGStatActivity_pair db,
    collectPGStatStatements_pair db v, collectStatBGWriter_pair db,
    collectStatWal_pair db v]
  · simp [List.lookup]
  · rw [collectPGSettings_result]
    simp [List.lookup]
  · rw [collectPGStatActivity_result]
    simp [List.lookup]
  · rw [collectStatBGWriter_result]
    simp [List.lookup]
  · intro hlt
    rw [collectStatWal_result]
    simp [List.lookup, hlt]
  · intro hge
    rw [collectStatWal_result]
    simp [List.lookup, hge]
  · intro hext
    rw [collectPGStatStatements_result]
    rcases hh : db.extensionLoaded "pg_stat_statements" with e | b
    · simp [List.lookup, hh]
    · cases b
      · simp [List.lookup, hh]
      · exact absurd hh hext
  · intro hext
    rw [collectPGStatStatements_result]
    simp [List.lookup, hext]
  · intro hlt r
    rw [collect_ok db cfg host port v hv,
      collect_ok { db with statWal := r } cfg host port v hv]
    have hwal : inspect.collectStatWal { db with statWal := r } v =
        inspect.collectStatWal db v := by
      refine Prod.ext ?_ ?_
      · rw [collectStatWal_key, collectStatWal_key]
      · rw [collectStatWal_result, collectStatWal_result]
        simp [hlt]
    rw [hwal]
    rfl
  · intro hext r
    rw [collect_ok db cfg host port v hv,
      collect_ok { db with pgStatStatements := r } cfg host port v hv]
    have hpgss : inspect.collectPGStatStatements { db with pgStatStatements := r }
        (inspect.collectPrereqs { db with pgStatStatements := r } v) =
        inspect.collectPGStatStatements db (inspect.collectPrereqs db v) := by
      refine Prod.ext ?_ ?_
      · rw [collectPGStatStatements_key, collectPGStatStatements_key]
      · rw [collectPGStatStatements_result, collectPGStatStatements_result]
        rcases hh : db.extensionLoaded "pg_stat_statements" with e | b
        · simp [hh]
        · cases b
          · simp [hh]
          · exact absurd hh hext
    rw [hpgss]
    rfl

/-- **C5** witness: against a PostgreSQL 12 database where every probe
but the version read and `pg_settings` fails, a snapshot is still
produced and the `pg_stat_wal` section is pre-marked
"requires PostgreSQL 14+". -/
theorem claim5_collect_witness :
    ∃ snap, inspect.Collect sampleDB12 {} "db.internal" 5432 = .ok snap ∧
      snap.sections.lookup "pg_stat_wal" =
        some { available := false, error := "requires PostgreSQL 14+" } :=
  (claim5_collect sampleDB12 {} "db.internal" 5432 120000 rfl).elim
    (fun snap h => ⟨snap, h.1, h.2.2.2.2.2.1 (by decide)⟩)

/-- When no member bears the candidate's name, `validateCandidate`
reports "not found". -/
theorem validateCandidateIn_not_found (cand : String) (maxLag : Int) :
    ∀ ms : List patroni.Member, (∀ m ∈ ms, m.name ≠ cand) →
      failover.validateCandidateIn ms cand maxLag =
        .error ("candidate \"" ++ cand ++ "\" not found in cluster") := by
  intro ms
  induction ms with
  | nil => intro _; rfl
  | cons hd rest ih =>
      intro h
      rw [failover.validateCandidateIn]
      have hb : (hd.name != cand) = true := by
        simpa using h hd (by simp)
      simp only [hb, reduceIte]
      exact ih (fun x hx => h x (by simp [hx]))

/-- When the member bearing the candidate's name (unique, by the name
`Nodup` hypothesis) is the leader or master, `validateCandidate` reports
"already the primary". -/
theorem validateCandidateIn_already_primary (cand : String) (maxLag : Int) :
    ∀ ms : List patroni.Member, (ms.map patroni.Member.name).Nodup →
      ∀ m ∈ ms, m.name = cand → failover.isPrimaryRole m = true →
      failover.validateCandidateIn ms cand maxLag =
        .error ("candidate \"" ++ cand ++ "\" is already the primary") := by
  intro ms
  induction ms with
  | nil => intro _ m hm; exact absurd hm (by simp)
  | cons hd rest ih =>
      intro hnodup m hm hname hprim
      simp only [List.map_cons, List.nodup_cons] at hnodup
      rw [failover.validateCandidateIn]
      rcases List.mem_cons.mp hm with rfl | hmem
      · have hb : (m.name != cand) = false := by simp [hname]
        have hrole : (m.role == "leader" || m.role == "master") = true := by
          simpa [failover.isPrimaryRole] using hprim
        simp [hb, hrole]
      · have hhd : hd.name ≠ cand := by
          intro heq
          exact hnodup.1 (List.mem_map.mpr ⟨m, hmem, by rw [hname, heq]⟩)
        have hb : (hd.name != cand) = true := by simpa using hhd
        simp only [hb, reduceIte]
        exact ih hnodup.2 m hmem hname hprim

/-- Under unique member names, `validateCandidate` succeeds exactly when
the named member exists, is non-primary, is running, and is within the
lag threshold. -/
theorem validateCandidateIn_ok_iff (cand : String) (maxLag : Int) :
    ∀ ms : List patroni.Member, (ms.map patroni.Member.name).Nodup →
      (failover.validateCandidateIn ms cand maxLag = .ok () ↔
        ∃ m ∈ ms, m.name = cand ∧ failover.isPrimaryRole m = false ∧
          m.state = patroni.StateRunning ∧ m.lag ≤ maxLag) := by
  intro ms
  induction ms with
  | nil => intro _; simp [failover.validateCandidateIn]
  | cons hd rest ih =>
      intro hnodup
      simp only [List.map_cons, List.nodup_cons] at hnodup
      rw [failover.validateCandidateIn]
      by_cases hname : hd.name = cand
      · have hb : (hd.name != cand) = false := by simp [hname]
        simp only [hb, Bool.false_eq_true, reduceIte]
        constructor
        · intro hok
          by_cases hrole : (hd.role == "leader" || hd.role == "master") = true
          · simp [hrole] at hok
          · by_cases hstate : (hd.state != patroni.StateRunning) = true
            · simp [hrole, hstate] at hok
            · by_cases hlag : hd.lag > maxLag
              · simp [hrole, hstate, hlag] at hok
              · refine ⟨hd, by simp, hname, ?_, ?_, by omega⟩
                · simpa [failover.isPrimaryRole] using hrole
                · simpa using hstate
        · rintro ⟨m, hm, hmname, hmrole, hmstate, hmlag⟩
          rcases List.mem_cons.mp hm with rfl | hmem
          · have hrole : (m.role == "leader" || m.role == "master") = false := by
              simpa [failover.isPrimaryRole] using hmrole
            have hstate : (m.state != patroni.StateRunning) = false := by
              simp [hmstate]
            have hlag : ¬m.lag > maxLag := by omega
            simp [hrole, hstate, hlag]
          · exact absurd
              (List.mem_map.mpr ⟨m, hmem, by rw [hmname, hname]⟩) hnodup.1
      · have hb : (hd.name != cand) = true := by simpa using hname
        simp only [hb, reduceIte]
        rw [ih hnodup.2]
        constructor
        · rintro ⟨m, hm, hrest⟩
          exact ⟨m, by simp [hm], hrest⟩
        · rintro ⟨m, hm, hmname, hrest⟩
          rcases List.mem_cons.mp hm with rfl | hmem
          · exact absurd hmname hname
          · exact ⟨m, hmem, hmname, hrest⟩

/-- `findPrimaryIn` finds nothing exactly when no member is leader or
master. -/
theorem findPrimaryIn_eq_none_iff (ms : List patroni.Member) :
    failover.findPrimaryIn ms = none ↔
      ∀ m ∈ ms, failover.isPrimaryRole m = false := by
  rw [findPrimaryIn_eq_findFirst]
  simp [List.find?_eq_none, failover.isPrimaryRole]

/-- **C3**: under unique member names, `CheckSwitchover` succeeds iff a
primary exists, a non-empty candidate names a running non-primary member
within the lag threshold (lag equal to the threshold passes, one byte
over fails, by the `≤` in the characterization), and an empty candidate
finds at least one running replica; the default threshold is
10 × 1024 × 1024 bytes; a candidate naming the primary draws the
"already the primary" error, a candidate naming nobody draws the
"not found" error, and the two messages differ. -/
theorem claim3_checkSwitchover (cs : patroni.ClusterStatus) (cand : String)
    (maxLag : Int) (hnodup : (cs.members.map patroni.Member.name).Nodup) :
    (failover.CheckSwitchover cs cand maxLag = .ok () ↔
      (∃ m ∈ cs.members, failover.isPrimaryRole m = true) ∧
      (cand = "" → ∃ m ∈ cs.members, failover.isPrimaryRole m = false ∧
        m.state = patroni.StateRunning) ∧
      (cand ≠ "" → ∃ m ∈ cs.members, m.name = cand ∧
        failover.isPrimaryRole m = false ∧ m.state = patroni.StateRunning ∧
        m.lag ≤ maxLag)) ∧
    failover.DefaultMaxLagBytes = 10 * 1024 * 1024 ∧
    (∀ m ∈ cs.members, cand ≠ "" → m.name = cand →
      failover.isPrimaryRole m = true →
      failover.CheckSwitchover cs cand maxLag =
        .error ("candidate \"" ++ cand ++ "\" is already the primary")) ∧
    ((∀ m ∈ cs.members, m.name ≠ cand) → cand ≠ "" →
      (∃ m ∈ cs.members, failover.isPrimaryRole m = true) →
      failover.CheckSwitchover cs cand maxLag =
        .error ("candidate \"" ++ cand ++ "\" not found in cluster")) ∧
    ("candidate \"" ++ cand ++ "\" is already the primary" ≠
      "candidate \"" ++ cand ++ "\" not found in cluster") := by
  have hmsg : ("candidate \"" ++ cand ++ "\" is already the primary" ≠
      "candidate \"" ++ cand ++ "\" not found in cluster") := by
    intro h
    have hlen := congrArg String.length h
    simp only [String.length_append] at hlen
    have h1 : ("\" is already the primary" : String).length = 24 := by decide
    have h2 : ("\" not found in cluster" : String).length = 22 := by decide
    omega
  have hreplica : ∀ ms : List patroni.Member,
      (ms.any (fun m =>
        m.role != "leader" && m.role != "master" &&
          m.state == patroni.StateRunning) = true) ↔
      ∃ m ∈ ms, failover.isPrimaryRole m = false ∧
        m.state = patroni.StateRunning := by
    intro ms
    rw [List.any_eq_true]
    constructor
    · rintro ⟨m, hm, hpred⟩
      simp only [Bool.and_eq_true, bne_iff_ne, beq_iff_eq, ne_eq] at hpred
      exact ⟨m, hm, by simp [failover.isPrimaryRole, hpred.1.1, hpred.1.2],
        hpred.2⟩
    · rintro ⟨m, hm, hrole, hstate⟩
      simp only [failover.isPrimaryRole, Bool.or_eq_false_iff,
        beq_eq_false_iff_ne, ne_eq] at hrole
      exact ⟨m, hm, by
        simp only [Bool.and_eq_true, bne_iff_ne, beq_iff_eq, ne_eq]
        exact ⟨⟨hrole.1, hrole.2⟩, hstate⟩⟩
  rcases hfp : failover.findPrimaryIn cs.members with _ | n
  · have hall : ∀ m ∈ cs.members, failover.isPrimaryRole m = false :=
      (findPrimaryIn_eq_none_iff cs.members).mp hfp
    refine ⟨?_, rfl, ?_, ?_, hmsg⟩
    · rw [failover.CheckSwitchover]
      rw [failover.FindPrimary, hfp]
      constructor
      · intro h; exact absurd h (by simp)
      · rintro ⟨⟨m, hm, hprim⟩, _, _⟩
        exact absurd hprim (by simp [hall m hm])
    · intro m hm _ _ hprim
      exact absurd hprim (by simp [hall m hm])
    · rintro _ _ ⟨m, hm, hprim⟩
      exact absurd hprim (by simp [hall m hm])
  · have hck : failover.CheckSwitchover cs cand maxLag =
        if cand ≠ "" then failover.validateCandidateIn cs.members cand maxLag
        else if cs.members.any (fun m =>
            m.role != "leader" && m.role != "master" &&
              m.state == patroni.StateRunning) then .ok ()
        else .error "switchover pre-check: no running replicas available" := by
      rw [failover.CheckSwitchover, failover.FindPrimary, hfp]
      rfl
    have hprimEx : ∃ m ∈ cs.members, failover.isPrimaryRole m = true := by
      rw [findPrimaryIn_eq_findFirst] at hfp
      rcases hfind : cs.members.find?
          (fun m => m.role == "leader" || m.role == "master") with _ | m
      · rw [hfind] at hfp; simp at hfp
      · exact ⟨m, List.mem_of_find?_eq_some hfind,
          by simpa [failover.isPrimaryRole] using List.find?_some hfind⟩
    refine ⟨?_, rfl, ?_, ?_, hmsg⟩
    · rw [hck]
      by_cases hcand : cand = ""
      · rw [if_neg (fun h => h hcand)]
        constructor
        · intro h
          refine ⟨hprimEx, fun _ => ?_, fun hne => absurd hcand hne⟩
          by_cases hany : cs.members.any (fun m =>
              m.role != "leader" && m.role != "master" &&
                m.state == patroni.StateRunning) = true
          · exact (hreplica cs.members).mp hany
          · rw [if_neg hany] at h
            exact absurd h (by simp)
        · rintro ⟨_, hrep, _⟩
          rw [if_pos ((hreplica cs.members).mpr (hrep hcand))]
      · rw [if_pos hcand]
        rw [validateCandidateIn_ok_iff cand maxLag cs.members hnodup]
        constructor
        · intro h
          exact ⟨hprimEx, fun he => absurd he hcand, fun _ => h⟩
        · rintro ⟨_, _, h⟩
          exact h hcand
    · intro m hm hne hname hprim
      rw [hck, if_pos hne]
      exact validateCandidateIn_already_primary cand maxLag cs.members hnodup
        m hm hname hprim
    · intro hnone hne _
      rw [hck, if_pos hne]
      exact validateCandidateIn_not_found cand maxLag cs.members hnone

/-- **C3** witness: on a cluster with one leader and two running
replicas (lags exactly at the default threshold and one byte over),
`CheckSwitchover` accepts the at-threshold candidate, rejects the
one-byte-over candidate, and refuses the leader with the
"already the primary" error. -/
theorem claim3_checkSwitchover_witness :
    failover.CheckSwitchover sampleCluster "pg-replica-1"
      failover.DefaultMaxLagBytes = .ok () ∧
    ¬failover.CheckSwitchover sampleCluster "pg-replica-2"
      failover.DefaultMaxLagBytes = .ok () ∧
    failover.CheckSwitchover sampleCluster "pg-primary"
      failover.DefaultMaxLagBytes =
      .error ("candidate \"" ++ "pg-primary" ++ "\" is already the primary") :=
  ⟨(claim3_checkSwitchover sampleCluster "pg-replica-1"
      failover.DefaultMaxLagBytes (by decide)).1.mpr (by decide),
   fun h => absurd
     ((claim3_checkSwitchover sampleCluster "pg-replica-2"
        failover.DefaultMaxLagBytes (by decide)).1.mp h) (by decide),
   (claim3_checkSwitchover sampleCluster "pg-primary"
      failover.DefaultMaxLagBytes (by decide)).2.2.1
     { name := "pg-primary", host := "10.0.0.1", port := 5432, role := "leader",
       state := "running", lag := 0, timeline := 1, apiURL := "" }
     (by decide) (by decide) rfl rfl⟩

end Pgdba
